import Mathlib

/-!
Verification development for the solPaper paper-trading bot (src/bot.py).

The Python source keeps per-user portfolios in dictionaries of plain
records and mutates them in place.  Here every dictionary becomes an
association list (`Dict`), every float becomes a rational number, the
random slippage draw becomes an explicit argument (the spec requires an
injectable random source), and in-place mutation becomes a function from
the old portfolio to the new one.  An operation that Python would abort
with an exception or an early return is modelled as `Except`, where the
error value carries the portfolio state left behind at the moment the
operation stopped (Python mutates in place, so state mutated before an
exception persists).
-/

namespace SolPaper

/-- Dictionary model: association list keyed by strings, first binding wins,
mirroring a Python dict (unique keys, insertion order preserved). -/
abbrev Dict (α : Type) := List (String × α)

/-- Lookup of a key, as Python `d[k]` / `k in d`. -/
def Dict.find {α : Type} (k : String) : Dict α → Option α
  | [] => none
  | (k₁, v) :: rest => if k₁ = k then some v else Dict.find k rest

/-- Assignment `d[k] = v`: replaces the first binding of `k` in place, or
appends a new binding at the end, as Python dict assignment does. -/
def Dict.set {α : Type} (k : String) (v : α) : Dict α → Dict α
  | [] => [(k, v)]
  | (k₁, v₁) :: rest =>
      if k₁ = k then (k, v) :: rest else (k₁, v₁) :: Dict.set k v rest

/-- Deletion `del d[k]`: removes every binding of `k` (a Python dict holds
at most one). -/
def Dict.erase {α : Type} (k : String) : Dict α → Dict α
  | [] => []
  | (k₁, v) :: rest =>
      if k₁ = k then Dict.erase k rest else (k₁, v) :: Dict.erase k rest

@[simp] theorem Dict.find_set {α : Type} (k : String) (v : α) (d : Dict α) :
    Dict.find k (Dict.set k v d) = some v := by
  induction d with
  | nil => simp [Dict.set, Dict.find]
  | cons kv rest ih =>
      by_cases h : kv.1 = k
      · simp [Dict.set, h, Dict.find]
      · simpa [Dict.set, h, Dict.find] using ih

@[simp] theorem Dict.find_erase {α : Type} (k : String) (d : Dict α) :
    Dict.find k (Dict.erase k d) = none := by
  induction d with
  | nil => simp [Dict.erase, Dict.find]
  | cons kv rest ih =>
      obtain ⟨k₁, v⟩ := kv
      by_cases h : k₁ = k
      · simpa [Dict.erase, h] using ih
      · simpa [Dict.erase, Dict.find, h] using ih

/-- Position record: `{'amount': ..., 'avg_price': ..., 'symbol': ...}`
(src/bot.py, lines 637-647). -/
structure Position where
  amount : ℚ
  avg_price : ℚ
  symbol : Option String
  deriving Repr, DecidableEq

/-- Trade direction tag, the `'type'` field of a history record. -/
inductive TradeKind where
  | BUY
  | SELL
  deriving Repr, DecidableEq

/-- History record appended by buy (lines 650-657) and sell (lines 726-734);
`profit` is present on SELL records only. -/
structure Trade where
  kind : TradeKind
  token : String
  amount : ℚ
  price : ℚ
  value_sol : ℚ
  profit : Option ℚ
  timestamp : ℚ
  deriving Repr, DecidableEq

/-- Portfolio record: `{'balance': ..., 'positions': ..., 'history': ...}`
(lines 593-598). -/
structure Portfolio where
  balance : ℚ
  positions : Dict Position
  history : List Trade
  deriving Repr, DecidableEq

/-- Failure modes of the ledger operations.  Python signals the first five by
an early `return` with an error message; `zeroDivision` is a Python
`ZeroDivisionError` escaping from the handler. -/
inductive TradeError where
  | insufficientBalance
  | quoteUnavailable
  | noSuchPosition
  | insufficientHoldings
  | invalidAmount
  | zeroDivision
  deriving Repr, DecidableEq

/-- Result of a ledger operation: `ok` with the new portfolio, or an error
together with the portfolio state left behind when the operation stopped. -/
abbrev LedgerResult := Except (TradeError × Portfolio) Portfolio

/-- Slippage model, `apply_slippage` (lines 31-42).  Python draws
`impact = random.uniform(0, slippage_pct / 100)`; the draw is passed in
explicitly here, with `drawAdmissible` capturing its range. -/
def apply_slippage (price : ℚ) (is_buy : Bool) (slippage_pct : ℚ) (draw : ℚ) :
    ℚ × ℚ :=
  let impact := draw
  let exec_price := if is_buy then price * (1 + impact) else price * (1 - impact)
  (exec_price, impact * 100)

/-- Range of values `random.uniform(0, slippage_pct / 100)` can return. -/
def drawAdmissible (slippage_pct draw : ℚ) : Prop :=
  0 ≤ draw ∧ draw ≤ slippage_pct / 100

/-- Buy operation, `buy` (lines 589-667), after argument parsing: `price` is
`info['price']` from the aggregator (`none` or `some 0` both hit the Python
`if not price` guard), `symbol` is `info['symbol']`, and `now` stamps the
trade.  The balance is deducted (line 630) before the position merge
(line 636), so a division by zero in the merge leaves the deduction behind. -/
def buy (portfolio : Portfolio) (token : String) (sol_amount : ℚ)
    (price : Option ℚ) (symbol : Option String)
    (slippage_pct draw now : ℚ) : LedgerResult :=
  if sol_amount > portfolio.balance then
    .error (.insufficientBalance, portfolio)
  else
    match price with
    | none => .error (.quoteUnavailable, portfolio)
    | some p =>
      if p = 0 then .error (.quoteUnavailable, portfolio)
      else
        let exec_price := (apply_slippage p true slippage_pct draw).1
        if exec_price = 0 then .error (.zeroDivision, portfolio)
        else
          let tokens := sol_amount / exec_price
          let balance₁ := portfolio.balance - sol_amount
          match Dict.find token portfolio.positions with
          | some pos =>
              let new_total := pos.amount + tokens
              if new_total = 0 then
                .error (.zeroDivision,
                  { portfolio with balance := balance₁ })
              else
                let new_avg :=
                  (pos.amount * pos.avg_price + tokens * exec_price) / new_total
                .ok { balance := balance₁
                      positions := Dict.set token
                        ⟨new_total, new_avg, symbol⟩ portfolio.positions
                      history := portfolio.history ++
                        [⟨.BUY, token, tokens, exec_price, sol_amount, none, now⟩] }
          | none =>
              .ok { balance := balance₁
                    positions := Dict.set token
                      ⟨tokens, exec_price, symbol⟩ portfolio.positions
                    history := portfolio.history ++
                      [⟨.BUY, token, tokens, exec_price, sol_amount, none, now⟩] }

/-- Sell operation, `sell` (lines 669-746): `amountArg = none` models the
literal `"all"` selector (line 689), which sells the full held amount.
`profit_pct` (line 716) divides by `avg_price` before any mutation, so a
zero average cost aborts with the portfolio untouched.  The residual
position is deleted when it falls below `0.0001` (lines 722-723). -/
def sell (portfolio : Portfolio) (token : String) (amountArg : Option ℚ)
    (price : Option ℚ) (slippage_pct draw now : ℚ) : LedgerResult :=
  match Dict.find token portfolio.positions with
  | none => .error (.noSuchPosition, portfolio)
  | some pos =>
    let amount := match amountArg with
      | none => pos.amount
      | some a => a
    if amount > pos.amount then
      .error (.insufficientHoldings, portfolio)
    else
      match price with
      | none => .error (.quoteUnavailable, portfolio)
      | some p =>
        if p = 0 then .error (.quoteUnavailable, portfolio)
        else
          let exec_price := (apply_slippage p false slippage_pct draw).1
          let sol_amount := amount * exec_price
          let profit := (exec_price - pos.avg_price) * amount
          if pos.avg_price = 0 then .error (.zeroDivision, portfolio)
          else
            let balance₁ := portfolio.balance + sol_amount
            let remaining := pos.amount - amount
            let positions₁ :=
              if remaining < 1 / 10000 then
                Dict.erase token portfolio.positions
              else
                Dict.set token { pos with amount := remaining }
                  portfolio.positions
            .ok { balance := balance₁
                  positions := positions₁
                  history := portfolio.history ++
                    [⟨.SELL, token, amount, exec_price, sol_amount,
                      some profit, now⟩] }

/-- Fund operation, `fund` (lines 1273-1300), after argument parsing (a
missing argument defaults to `1.0` in the caller).  The only amount check
in the source is `if amount > 20` (line 1289). -/
def fund (portfolio : Portfolio) (amount : ℚ) : LedgerResult :=
  if amount > 20 then
    .error (.invalidAmount, portfolio)
  else
    .ok { portfolio with balance := portfolio.balance + amount }

/-- Provider endpoints `get_token_info` can hit during one fresh fetch, in
the order the source tries them (lines 196, 205, 218, 247, 283, 304). -/
inductive Provider where
  | jupiterSolRate
  | dexScreenerSolRate
  | pumpFun
  | dexScreenerToken
  | jupiterToken
  | birdeyeToken
  deriving Repr, DecidableEq

/-- Parsed Pump.fun response body (lines 222-240): presence of `mint`, the
`complete` flag, virtual reserves, and metadata, with absent numeric fields
already defaulted to 0 as the `.get(..., 0)` calls do. -/
structure PumpResponse where
  mintPresent : Bool
  complete : Bool
  virtual_sol_reserves : ℤ
  virtual_token_reserves : ℤ
  name : Option String
  symbol : Option String
  market_cap : ℚ
  created_timestamp : Option ℚ
  deriving Repr, DecidableEq

/-- One DexScreener pair (lines 251-271). -/
structure DexPair where
  baseTokenName : Option String
  baseTokenSymbol : Option String
  priceUsd : ℚ
  fdv : Option ℚ
  liquidityUsd : Option ℚ
  volumeH24 : Option ℚ
  priceChangeH24 : Option ℚ
  dexId : Option String
  pairAddress : Option String
  pairCreatedAt : Option ℚ
  deriving Repr, DecidableEq

/-- Network environment of one `get_token_info` call: the parsed answer each
provider would return, where `none` stands for any soft failure (exception,
non-200 status, malformed or missing JSON fields) that the source absorbs. -/
structure Env where
  jupiterSol : Option ℚ
  dexScreenerSol : Option ℚ
  pump : Option PumpResponse
  dexPairs : Option (List DexPair)
  jupiterToken : Option ℚ
  birdeye : Option ℚ
  deriving Repr, DecidableEq

/-- Token info record initialised at lines 170-185 and filled in by the
provider chain; `holders` is declared but never assigned by the source. -/
structure Info where
  price : Option ℚ
  price_usd : Option ℚ
  name : Option String
  symbol : Option String
  market_cap : Option ℚ
  liquidity : Option ℚ
  volume_24h : Option ℚ
  price_change_24h : Option ℚ
  holders : Option ℚ
  created_at : Option ℚ
  dex_name : Option String
  pair_address : Option String
  sol_price : ℚ
  price_timestamp : Option ℚ
  deriving Repr, DecidableEq

/-- The all-`None` info dictionary of lines 170-185. -/
def emptyInfo : Info :=
  ⟨none, none, none, none, none, none, none, none, none, none, none, none,
   0, none⟩

/-- Python truthiness of an optional number, as tested by
`if not info['price']` (both `None` and `0.0` are falsy). -/
def truthy : Option ℚ → Bool
  | none => false
  | some x => decide (x ≠ 0)

/-- SOL/USD rate resolution (lines 193-214): Jupiter first, then the
DexScreener wrapped-SOL fallback; both failing leaves the rate at 0.
Returns the rate together with the requests issued. -/
def solFetch (env : Env) : ℚ × List Provider :=
  match env.jupiterSol with
  | some r => (r, [.jupiterSolRate])
  | none =>
    match env.dexScreenerSol with
    | some r => (r, [.jupiterSolRate, .dexScreenerSolRate])
    | none => (0, [.jupiterSolRate, .dexScreenerSolRate])

/-- Liquidity key of a pair: `x.get('liquidity', {}).get('usd', 0) or 0`. -/
def liqVal (pair : DexPair) : ℚ := pair.liquidityUsd.getD 0

/-- Python `max(pairs, key=...)` (line 253): scans left to right and keeps
the first maximal element, replacing only on a strictly greater key. -/
def maxByLiquidity (best : DexPair) : List DexPair → DexPair
  | [] => best
  | q :: rest =>
      if liqVal best < liqVal q then maxByLiquidity q rest
      else maxByLiquidity best rest

/-- Pump.fun bonding-curve quote (lines 226-240), built when the curve is
active and `virtual_token_reserves > 0`:
`price = (v_sol / 1e9) / (v_token / 1e6)` in SOL. -/
def pumpInfo (pr : PumpResponse) (sol_price now : ℚ) : Info :=
  let price_sol := ((pr.virtual_sol_reserves : ℚ) / 1000000000) /
    ((pr.virtual_token_reserves : ℚ) / 1000000)
  { emptyInfo with
    sol_price := sol_price
    price := some price_sol
    price_usd := some (if sol_price ≠ 0 then price_sol * sol_price else 0)
    name := some (pr.name.getD "Unknown")
    symbol := some (pr.symbol.getD "Unknown")
    market_cap := some (pr.market_cap * sol_price)
    dex_name := some "Pump.fun (Bonding Curve)"
    price_timestamp := some now
    created_at := pr.created_timestamp.map (fun c => c / 1000) }

/-- DexScreener step (lines 246-278): with a non-empty pair list, the
highest-liquidity pair fills the record; the SOL-denominated price is set
only when the SOL rate is positive. -/
def dexScreenerStep (info : Info) (sol_price now : ℚ) :
    Option (List DexPair) → Info
  | none => info
  | some [] => info
  | some (q :: rest) =>
      let pair := maxByLiquidity q rest
      { info with
        name := some (pair.baseTokenName.getD "Unknown")
        symbol := some (pair.baseTokenSymbol.getD "Unknown")
        price_usd := some pair.priceUsd
        price := if 0 < sol_price then some (pair.priceUsd / sol_price)
          else info.price
        market_cap := pair.fdv
        liquidity := pair.liquidityUsd
        volume_24h := pair.volumeH24
        price_change_24h := pair.priceChangeH24
        dex_name := some (pair.dexId.getD "Unknown DEX")
        pair_address := some (pair.pairAddress.getD "")
        price_timestamp := some now
        created_at := pair.pairCreatedAt.map (fun c => c / 1000) }

/-- Jupiter token-price fallback (lines 281-299), entered only when no
truthy price is set yet. -/
def jupiterStep (info : Info) (sol_price now : ℚ) : Option ℚ → Info
  | none => info
  | some v =>
      { info with
        price_usd := some v
        price := if 0 < sol_price then some (v / sol_price) else info.price
        dex_name := some "Jupiter Aggregated"
        price_timestamp := some now }

/-- Birdeye fallback (lines 301-320), entered only when no truthy price is
set yet. -/
def birdeyeStep (info : Info) (sol_price now : ℚ) : Option ℚ → Info
  | none => info
  | some v =>
      { info with
        price_usd := some v
        price := if 0 < sol_price then some (v / sol_price) else info.price
        dex_name := some "Birdeye"
        price_timestamp := some now }

/-- Fallback chain after the bonding-curve attempt (lines 245-320):
DexScreener, then Jupiter and Birdeye guarded by `if not info['price']`. -/
def chainAfterPump (sol_price now : ℚ) (env : Env) : Info × List Provider :=
  let info₁ := dexScreenerStep { emptyInfo with sol_price := sol_price }
    sol_price now env.dexPairs
  if truthy info₁.price then
    (info₁, [.dexScreenerToken])
  else
    let info₂ := jupiterStep info₁ sol_price now env.jupiterToken
    if truthy info₂.price then
      (info₂, [.dexScreenerToken, .jupiterToken])
    else
      (birdeyeStep info₂ sol_price now env.birdeye,
       [.dexScreenerToken, .jupiterToken, .birdeyeToken])

/-- Condition of the early `return info` at line 241: a Pump.fun answer with
`mint` present, the bonding curve not complete, and positive virtual token
reserves.  That return path skips the cache write at lines 325-329. -/
def pumpEarlyReturn (env : Env) : Bool :=
  match env.pump with
  | none => false
  | some pr =>
      pr.mintPresent && !pr.complete && decide (0 < pr.virtual_token_reserves)

/-- The price cache `self.price_cache` (line 27):
token → `{'timestamp': ..., 'data': ...}`. -/
abbrev Cache := Dict (ℚ × Info)

/-- Outcome of one `get_token_info` call: the info returned, the cache
afterwards, and the network requests issued. -/
structure FetchResult where
  info : Info
  cache : Cache
  requests : List Provider
  deriving Repr, DecidableEq

/-- One fresh provider-chain fetch (lines 170-330), entered when the cache
check missed: the SOL rate, the Pump.fun attempt (whose active-curve branch
returns at line 241 without writing the cache), then the fallback chain
followed by the cache write at lines 325-329. -/
def fetchFresh (cache : Cache) (token : String) (now : ℚ) (env : Env) :
    FetchResult :=
  let (sol_price, solReqs) := solFetch env
  match env.pump with
  | some pr =>
      if pr.mintPresent && !pr.complete then
        if 0 < pr.virtual_token_reserves then
          ⟨pumpInfo pr sol_price now, cache, solReqs ++ [.pumpFun]⟩
        else
          let (info, reqs) := chainAfterPump sol_price now env
          ⟨info, Dict.set token (now, info) cache,
           solReqs ++ [.pumpFun] ++ reqs⟩
      else
        let (info, reqs) := chainAfterPump sol_price now env
        ⟨info, Dict.set token (now, info) cache, solReqs ++ [.pumpFun] ++ reqs⟩
  | none =>
      let (info, reqs) := chainAfterPump sol_price now env
      ⟨info, Dict.set token (now, info) cache, solReqs ++ [.pumpFun] ++ reqs⟩

/-- Entry point `get_token_info` (lines 161-330): serve from the cache when
the entry is younger than 10 seconds (lines 164-168, no network request),
otherwise run the fresh fetch. -/
def get_token_info (cache : Cache) (token : String) (now : ℚ) (env : Env) :
    FetchResult :=
  match Dict.find token cache with
  | some (ts, data) =>
      if now - ts < 10 then ⟨data, cache, []⟩
      else fetchFresh cache token now env
  | none => fetchFresh cache token now env

/-- User analytics record built by log_activity (lines 106-121). -/
structure UserStats where
  username : Option String
  first_name : Option String
  joined_at : String
  last_active : String
  commands : Dict ℕ
  deriving Repr, DecidableEq

/-- User settings record (line 1307): `{'slippage': float}`. -/
structure Settings where
  slippage : ℚ
  deriving Repr, DecidableEq

/-- The four module-level collections serialized by save_data (lines 78-83),
keyed by the integer (Telegram, hence nonnegative) user id. -/
structure BotState where
  portfolios : List (ℕ × Portfolio)
  watchlists : List (ℕ × List String)
  user_settings : List (ℕ × Settings)
  user_stats : List (ℕ × UserStats)
  deriving Repr, DecidableEq

/-- String form of an integer dictionary key as `json.dump` writes it: the
decimal representation `str(n)`. -/
def encodeKey (n : ℕ) : String :=
  if n = 0 then "0"
  else String.mk (((Nat.digits 10 n).map Nat.digitChar).reverse)

/-- Python `int(k)` applied to a JSON object key (lines 56-68): a non-empty
all-digit string parses back to the integer; anything else raises, which
the blanket handler at line 70 turns into a failed load. -/
def decodeKey (s : String) : Option ℕ :=
  if s.data ≠ [] ∧ s.data.all (fun c => c.isDigit) then
    some (s.data.foldl (fun a c => a * 10 + (c.toNat - 48)) 0)
  else none

/-- Shape of the document `_write_file_sync` dumps (lines 78-95): the four
collections with their integer keys serialized as strings; the payload
records survive the JSON round trip unchanged. -/
structure SavedDoc where
  portfolios : List (String × Portfolio)
  watchlists : List (String × List String)
  user_settings : List (String × Settings)
  user_stats : List (String × UserStats)
  deriving Repr, DecidableEq

/-- Serialization performed by save_data/_write_file_sync (lines 73-95). -/
def save_data (s : BotState) : SavedDoc :=
  ⟨s.portfolios.map (fun kv => (encodeKey kv.1, kv.2)),
   s.watchlists.map (fun kv => (encodeKey kv.1, kv.2)),
   s.user_settings.map (fun kv => (encodeKey kv.1, kv.2)),
   s.user_stats.map (fun kv => (encodeKey kv.1, kv.2))⟩

/-- Key-decoding loop of load_data for one collection:
`for k, v in data[...].items(): coll[int(k)] = v`. -/
def decodeEntries {α : Type} : List (String × α) → Option (List (ℕ × α))
  | [] => some []
  | (k, v) :: rest =>
      match decodeKey k, decodeEntries rest with
      | some n, some tail => some ((n, v) :: tail)
      | _, _ => none

/-- load_data (lines 44-71) applied to a document written by save_data:
every collection is rebuilt with integer keys reconstructed from their
string-encoded forms. -/
def load_data (d : SavedDoc) : Option BotState :=
  match decodeEntries d.portfolios, decodeEntries d.watchlists,
      decodeEntries d.user_settings, decodeEntries d.user_stats with
  | some p, some w, some s, some st => some ⟨p, w, s, st⟩
  | _, _, _, _ => none

theorem digitChar_isDigit {d : ℕ} (hd : d < 10) :
    (Nat.digitChar d).isDigit = true := by
  interval_cases d <;> decide

theorem digitChar_toNat {d : ℕ} (hd : d < 10) :
    (Nat.digitChar d).toNat - 48 = d := by
  interval_cases d <;> decide

theorem foldr_decodes_digits (l : List ℕ) (h : ∀ d ∈ l, d < 10) :
    (l.map Nat.digitChar).foldr (fun c a => a * 10 + (c.toNat - 48)) 0 =
      Nat.ofDigits 10 l := by
  induction l with
  | nil => rfl
  | cons d t ih =>
      simp only [List.map_cons, List.foldr_cons,
        ih (fun x hx => h x (List.mem_cons_of_mem _ hx)),
        Nat.ofDigits_cons, digitChar_toNat (h d (List.mem_cons_self _ _))]
      ring

/-- The decimal key encoding is inverted exactly by the integer parse. -/
theorem decodeKey_encodeKey (n : ℕ) : decodeKey (encodeKey n) = some n := by
  by_cases h0 : n = 0
  · subst h0; decide
  · have hne : Nat.digits 10 n ≠ [] := Nat.digits_ne_nil_iff_ne_zero.mpr h0
    have hall : ∀ d ∈ Nat.digits 10 n, d < 10 := fun d hd =>
      Nat.digits_lt_base (by norm_num) hd
    unfold encodeKey decodeKey
    rw [if_neg h0]
    have hdata : (String.mk (((Nat.digits 10 n).map Nat.digitChar).reverse)).data
        = ((Nat.digits 10 n).map Nat.digitChar).reverse := rfl
    rw [hdata]
    rw [if_pos ?side]
    case side =>
      constructor
      · simp [hne]
      · rw [List.all_eq_true]
        intro c hc
        rw [List.mem_reverse, List.mem_map] at hc
        obtain ⟨d, hd, rfl⟩ := hc
        exact digitChar_isDigit (hall d hd)
    rw [List.foldl_reverse, foldr_decodes_digits _ hall, Nat.ofDigits_digits]

theorem decodeEntries_save {α : Type} (l : List (ℕ × α)) :
    decodeEntries (l.map (fun kv => (encodeKey kv.1, kv.2))) = some l := by
  induction l with
  | nil => rfl
  | cons kv t ih => simp [decodeEntries, decodeKey_encodeKey, ih]

/-- C9: a save followed by a load reproduces the entire persisted state —
in particular an identical Portfolio (balance, positions, ordered history)
for every user — with the integer user-id keys reconstructed from their
string-encoded forms. -/
theorem save_load_roundtrip (s : BotState) :
    load_data (save_data s) = some s := by
  obtain ⟨p, w, st, us⟩ := s
  simp [load_data, save_data, decodeEntries_save]

/-- Decidable equality of ledger results, used to evaluate the operations at
concrete inputs. -/
instance exceptDecEq {e a : Type} [DecidableEq e] [DecidableEq a] :
    DecidableEq (Except e a)
  | .error x, .error y => decidable_of_iff (x = y) (by simp)
  | .error _, .ok _ => isFalse (by simp)
  | .ok _, .error _ => isFalse (by simp)
  | .ok x, .ok y => decidable_of_iff (x = y) (by simp)

/-- C1: every successful buy deducts exactly the requested SOL amount from
the balance, whatever execution price the slippage draw produced. -/
theorem buy_balance_exact (portfolio : Portfolio) (token : String)
    (sol_amount p : ℚ) (symbol : Option String) (slippage_pct draw now : ℚ)
    (result : Portfolio)
    (h : buy portfolio token sol_amount (some p) symbol slippage_pct draw now
      = .ok result) :
    result.balance = portfolio.balance - sol_amount := by
  simp only [buy] at h
  repeat' split at h
  all_goals first
    | (simp only [Except.ok.injEq] at h; subst h; rfl)
    | simp at h

/-- Witness for C1: a concrete buy of 5 SOL at price 1 with zero draw takes
the balance from 20 to 15. -/
theorem buy_balance_exact_witness :
    (⟨15, [("tok", ⟨5, 1, none⟩)], [⟨.BUY, "tok", 5, 1, 5, none, 0⟩]⟩ :
      Portfolio).balance = (⟨20, [], []⟩ : Portfolio).balance - 5 :=
  buy_balance_exact ⟨20, [], []⟩ "tok" 5 1 none 0 0 0 _
    (by norm_num [buy, apply_slippage, Dict.find, Dict.set])

/-- C2: a buy into an existing position merges by the weighted-average-cost
rule: new amount `old + requested/exec`, new average
`(old*avg + bought*exec) / (old + bought)`. -/
theorem buy_weighted_average (portfolio : Portfolio) (token : String)
    (sol_amount p : ℚ) (symbol : Option String) (slippage_pct draw now : ℚ)
    (pos : Position) (result : Portfolio)
    (hpos : Dict.find token portfolio.positions = some pos)
    (h : buy portfolio token sol_amount (some p) symbol slippage_pct draw now
      = .ok result) :
    Dict.find token result.positions =
      some ⟨pos.amount + sol_amount / (apply_slippage p true slippage_pct draw).1,
        (pos.amount * pos.avg_price +
          sol_amount / (apply_slippage p true slippage_pct draw).1 *
            (apply_slippage p true slippage_pct draw).1) /
          (pos.amount + sol_amount / (apply_slippage p true slippage_pct draw).1),
        symbol⟩ := by
  simp only [buy, hpos] at h
  repeat' split at h
  all_goals first
    | (simp only [Except.ok.injEq] at h; subst h; simp [Dict.find_set])
    | simp at h

/-- Witness for C2: buying 10 SOL at execution price 1 into a position of
100 tokens at average 2 yields 110 tokens at average 210/110 = 21/11. -/
theorem buy_weighted_average_witness :
    Dict.find "tok"
      ((⟨10, [("tok", ⟨110, 21 / 11, none⟩)],
        [⟨.BUY, "tok", 10, 1, 10, none, 0⟩]⟩ : Portfolio)).positions =
      some ⟨(100 : ℚ) + 10 / (apply_slippage 1 true 0 0).1,
        (100 * 2 + 10 / (apply_slippage 1 true 0 0).1 *
          (apply_slippage 1 true 0 0).1) /
          (100 + 10 / (apply_slippage 1 true 0 0).1), none⟩ :=
  buy_weighted_average ⟨20, [("tok", ⟨100, 2, none⟩)], []⟩ "tok" 10 1
    none 0 0 0 ⟨100, 2, none⟩
    ⟨10, [("tok", ⟨110, 21 / 11, none⟩)], [⟨.BUY, "tok", 10, 1, 10, none, 0⟩]⟩
    (by norm_num [Dict.find])
    (by norm_num [buy, apply_slippage, Dict.find, Dict.set])

/-- C3: every successful sell of `amount` tokens credits exactly
`amount * execPrice` to the balance, records a SELL trade whose realized
profit is `(execPrice - avgCost) * amount`, reduces the position by
`amount`, and deletes the position entry when the residual drops below
`1e-4`. -/
theorem sell_settlement (portfolio : Portfolio) (token : String)
    (amount p slippage_pct draw now : ℚ) (pos : Position) (result : Portfolio)
    (hpos : Dict.find token portfolio.positions = some pos)
    (h : sell portfolio token (some amount) (some p) slippage_pct draw now
      = .ok result) :
    result.balance =
      portfolio.balance + amount * (apply_slippage p false slippage_pct draw).1 ∧
    result.history = portfolio.history ++
      [⟨.SELL, token, amount, (apply_slippage p false slippage_pct draw).1,
        amount * (apply_slippage p false slippage_pct draw).1,
        some (((apply_slippage p false slippage_pct draw).1 - pos.avg_price)
          * amount), now⟩] ∧
    (pos.amount - amount < 1 / 10000 →
      Dict.find token result.positions = none) ∧
    (¬ pos.amount - amount < 1 / 10000 →
      Dict.find token result.positions =
        some ⟨pos.amount - amount, pos.avg_price, pos.symbol⟩) := by
  simp only [sell, hpos] at h
  repeat' split at h
  all_goals first
    | (simp only [Except.ok.injEq] at h; subst h;
       refine ⟨rfl, rfl, fun hres => ?_, fun hres => ?_⟩ <;>
         first
           | (simp [Dict.find_erase]; done)
           | (simp [Dict.find_set]; done)
           | exact absurd (by assumption) hres
           | exact absurd hres (by assumption))
    | (simp at h; done)

/-- Witness for C3: selling 5000 of a 5000-token position (avg cost 1/1000)
at execution price 2/1000 with zero draw credits 10, books profit 5, and
removes the position. -/
theorem sell_settlement_witness :
    ((⟨25, [], [⟨.SELL, "tok", 5000, 2 / 1000, 10, some 5, 0⟩]⟩ :
        Portfolio).balance =
      (⟨15, [("tok", ⟨5000, 1 / 1000, none⟩)], []⟩ : Portfolio).balance +
        5000 * (apply_slippage (2 / 1000) false 0 0).1) ∧
    ((⟨25, [], [⟨.SELL, "tok", 5000, 2 / 1000, 10, some 5, 0⟩]⟩ :
        Portfolio).history =
      [] ++ [⟨.SELL, "tok", 5000, (apply_slippage (2 / 1000) false 0 0).1,
        5000 * (apply_slippage (2 / 1000) false 0 0).1,
        some (((apply_slippage (2 / 1000) false 0 0).1 - 1 / 1000) * 5000),
        0⟩]) ∧
    ((5000 : ℚ) - 5000 < 1 / 10000 →
      Dict.find "tok" ([] : Dict Position) = none) ∧
    (¬ (5000 : ℚ) - 5000 < 1 / 10000 →
      Dict.find "tok" ([] : Dict Position) =
        some ⟨5000 - 5000, 1 / 1000, none⟩) :=
  sell_settlement ⟨15, [("tok", ⟨5000, 1 / 1000, none⟩)], []⟩ "tok"
    5000 (2 / 1000) 0 0 0 ⟨5000, 1 / 1000, none⟩
    ⟨25, [], [⟨.SELL, "tok", 5000, 2 / 1000, 10, some 5, 0⟩]⟩
    (by norm_num [Dict.find])
    (by norm_num [sell, apply_slippage, Dict.find, Dict.erase])

/-- C6: a successful sell with the "all" selector always leaves the
portfolio without a position entry for that token. -/
theorem sell_all_removes_position (portfolio : Portfolio) (token : String)
    (p slippage_pct draw now : ℚ) (result : Portfolio)
    (h : sell portfolio token none (some p) slippage_pct draw now
      = .ok result) :
    Dict.find token result.positions = none := by
  simp only [sell] at h
  repeat' split at h
  all_goals first
    | (simp only [Except.ok.injEq] at h; subst h; simp [Dict.find_erase]; done)
    | (simp at h; done)
    | (exfalso; norm_num at *)

/-- Witness for C6: a concrete "all" sell of the single held position leaves
an empty positions dictionary. -/
theorem sell_all_removes_position_witness :
    Dict.find "tok"
      (⟨25, [], [⟨.SELL, "tok", 5000, 2 / 1000, 10, some 5, 0⟩]⟩ :
        Portfolio).positions = none :=
  sell_all_removes_position ⟨15, [("tok", ⟨5000, 1 / 1000, none⟩)], []⟩ "tok"
    (2 / 1000) 0 0 0 _
    (by norm_num [sell, apply_slippage, Dict.find, Dict.erase, List.filter])

/-- C7: under an admissible draw the slippage model marks prices up for buys
and down for sells, and the reported applied percentage stays within
`[0, tolerance]` in both directions. -/
theorem apply_slippage_bounds (price tolerance_pct draw : ℚ)
    (hprice : 0 < price) (htol : 0 ≤ tolerance_pct)
    (hdraw : drawAdmissible tolerance_pct draw) :
    price ≤ (apply_slippage price true tolerance_pct draw).1 ∧
    (apply_slippage price false tolerance_pct draw).1 ≤ price ∧
    ∀ is_buy : Bool,
      0 ≤ (apply_slippage price is_buy tolerance_pct draw).2 ∧
      (apply_slippage price is_buy tolerance_pct draw).2 ≤ tolerance_pct := by
  obtain ⟨h0, h1⟩ := hdraw
  refine ⟨?_, ?_, fun is_buy => ⟨?_, ?_⟩⟩ <;>
    simp [apply_slippage] <;> nlinarith

/-- Witness for C7 at price 1, tolerance 1, draw 1/200. -/
theorem apply_slippage_bounds_witness :
    (1 : ℚ) ≤ (apply_slippage 1 true 1 (1 / 200)).1 ∧
    (apply_slippage 1 false 1 (1 / 200)).1 ≤ 1 ∧
    ∀ is_buy : Bool,
      0 ≤ (apply_slippage 1 is_buy 1 (1 / 200)).2 ∧
      (apply_slippage 1 is_buy 1 (1 / 200)).2 ≤ 1 :=
  apply_slippage_bounds 1 1 (1 / 200) (by norm_num) (by norm_num)
    ⟨by norm_num, by norm_num⟩

/-- C8: when the balance check passes but the aggregator yields no price,
buy fails with the quote-unavailable error and the portfolio it leaves
behind is exactly the input portfolio: no field was touched. -/
theorem buy_quote_unavailable_unchanged (portfolio : Portfolio)
    (token : String) (sol_amount : ℚ) (symbol : Option String)
    (slippage_pct draw now : ℚ)
    (hbal : ¬ sol_amount > portfolio.balance) :
    buy portfolio token sol_amount none symbol slippage_pct draw now =
      .error (.quoteUnavailable, portfolio) := by
  simp [buy, hbal]

/-- Witness for C8 at a concrete portfolio and amount. -/
theorem buy_quote_unavailable_unchanged_witness :
    buy (⟨20, [], []⟩ : Portfolio) "tok" 5 none none 0 0 0 =
      .error (.quoteUnavailable, ⟨20, [], []⟩) :=
  buy_quote_unavailable_unchanged ⟨20, [], []⟩ "tok" 5 none 0 0 0
    (by norm_num)

/-- C5 counterexample: `fund` with the non-positive amount `-1` is not
rejected; it debits the balance from 20 to 19, so the claimed
InvalidAmount failure with an unchanged balance is false on the code. -/
theorem fund_nonpositive_not_rejected :
    fund (⟨20, [], []⟩ : Portfolio) (-1) = .ok ⟨19, [], []⟩ ∧
    ∀ e q, fund (⟨20, [], []⟩ : Portfolio) (-1) ≠ .error (e, q) := by
  have h : fund (⟨20, [], []⟩ : Portfolio) (-1) = .ok ⟨19, [], []⟩ := by
    norm_num [fund]
  exact ⟨h, fun e q => by simp [h]⟩

/-- C5 amended: `fund` checks only the upper cap of 20 SOL per call: any
amount above 20 is rejected with the balance unchanged, and every amount
up to 20 — including zero and negative amounts — is credited exactly. -/
theorem fund_cap_check_only (portfolio : Portfolio) (amount : ℚ) :
    (amount > 20 → fund portfolio amount = .error (.invalidAmount, portfolio)) ∧
    (amount ≤ 20 → fund portfolio amount =
      .ok { portfolio with balance := portfolio.balance + amount }) := by
  constructor <;> intro h
  · simp [fund, h]
  · simp [fund, not_lt.mpr h]

/-- Witness for C5 amended: 21 SOL is rejected, 5 SOL is credited. -/
theorem fund_cap_check_only_witness :
    fund (⟨20, [], []⟩ : Portfolio) 21 =
      .error (.invalidAmount, ⟨20, [], []⟩) ∧
    fund (⟨20, [], []⟩ : Portfolio) 5 = .ok ⟨25, [], []⟩ := by
  constructor
  · exact (fund_cap_check_only ⟨20, [], []⟩ 21).1 (by norm_num)
  · have h := (fund_cap_check_only ⟨20, [], []⟩ 5).2 (by norm_num)
    rw [h]; norm_num

/-- C10 counterexample: with an existing position of 5000 tokens, a buy of
-5000 SOL at execution price 1 passes the balance check but divides by
zero in the weighted-average merge (Python raises ZeroDivisionError), with
the balance deduction of line 630 already applied — not the claimed clean
completion with a recorded trade. -/
theorem buy_no_lower_bound_counterexample :
    buy (⟨1, [("tok", ⟨5000, 1, none⟩)], []⟩ : Portfolio) "tok" (-5000)
      (some 1) none 0 0 0 =
      .error (.zeroDivision, ⟨5001, [("tok", ⟨5000, 1, none⟩)], []⟩) := by
  norm_num [buy, apply_slippage, Dict.find]

/-- C10 amended: buy has no lower bound on the amount. For every amount not
exceeding the balance — zero and negative included — with a positive price
and a nonnegative draw, the buy succeeds (provided the weighted-average
denominator `oldAmount + amount/execPrice` is nonzero when a position
already exists, the one input where Python instead raises
ZeroDivisionError): the balance decreases by exactly the amount (so it
increases when the amount is negative), a BUY trade with token amount
`amount / execPrice` (non-positive when the amount is non-positive) is
appended, and with no prior position the recorded position holds that
token amount. -/
theorem buy_no_lower_bound (portfolio : Portfolio) (token : String)
    (sol_amount p : ℚ) (symbol : Option String) (slippage_pct draw now : ℚ)
    (hbal : sol_amount ≤ portfolio.balance) (hp : 0 < p) (hdraw : 0 ≤ draw)
    (hden : ∀ pos, Dict.find token portfolio.positions = some pos →
      pos.amount + sol_amount / (apply_slippage p true slippage_pct draw).1 ≠ 0) :
    ∃ result,
      buy portfolio token sol_amount (some p) symbol slippage_pct draw now
        = .ok result ∧
      result.balance = portfolio.balance - sol_amount ∧
      result.history = portfolio.history ++
        [⟨.BUY, token, sol_amount / (apply_slippage p true slippage_pct draw).1,
          (apply_slippage p true slippage_pct draw).1, sol_amount, none, now⟩] ∧
      (sol_amount ≤ 0 →
        sol_amount / (apply_slippage p true slippage_pct draw).1 ≤ 0) ∧
      (Dict.find token portfolio.positions = none →
        Dict.find token result.positions =
          some ⟨sol_amount / (apply_slippage p true slippage_pct draw).1,
            (apply_slippage p true slippage_pct draw).1, symbol⟩) := by
  have hexecpos : 0 < (apply_slippage p true slippage_pct draw).1 := by
    simp [apply_slippage]
    nlinarith
  have hexec : (apply_slippage p true slippage_pct draw).1 ≠ 0 := ne_of_gt hexecpos
  have htok : sol_amount ≤ 0 →
      sol_amount / (apply_slippage p true slippage_pct draw).1 ≤ 0 := fun hs =>
    div_nonpos_of_nonpos_of_nonneg hs hexecpos.le
  cases hfind : Dict.find token portfolio.positions with
  | none =>
      have hbuy : buy portfolio token sol_amount (some p) symbol slippage_pct
          draw now = .ok
            ⟨portfolio.balance - sol_amount,
             Dict.set token
               ⟨sol_amount / (apply_slippage p true slippage_pct draw).1,
                (apply_slippage p true slippage_pct draw).1, symbol⟩
               portfolio.positions,
             portfolio.history ++ [⟨.BUY, token,
               sol_amount / (apply_slippage p true slippage_pct draw).1,
               (apply_slippage p true slippage_pct draw).1, sol_amount, none,
               now⟩]⟩ := by
        simp [buy, hfind, not_lt.mpr hbal, ne_of_gt hp, hexec]
      exact ⟨_, hbuy, rfl, rfl, htok, fun _ => Dict.find_set token _ _⟩
  | some pos =>
      have hbuy : buy portfolio token sol_amount (some p) symbol slippage_pct
          draw now = .ok
            ⟨portfolio.balance - sol_amount,
             Dict.set token
               ⟨pos.amount + sol_amount / (apply_slippage p true slippage_pct draw).1,
                (pos.amount * pos.avg_price +
                  sol_amount / (apply_slippage p true slippage_pct draw).1 *
                    (apply_slippage p true slippage_pct draw).1) /
                  (pos.amount +
                    sol_amount / (apply_slippage p true slippage_pct draw).1),
                symbol⟩
               portfolio.positions,
             portfolio.history ++ [⟨.BUY, token,
               sol_amount / (apply_slippage p true slippage_pct draw).1,
               (apply_slippage p true slippage_pct draw).1, sol_amount, none,
               now⟩]⟩ := by
        simp [buy, hfind, not_lt.mpr hbal, ne_of_gt hp, hexec, hden pos hfind]
      exact ⟨_, hbuy, rfl, rfl, htok,
        fun hnone => Option.noConfusion hnone⟩

/-- Environment used to exercise the bonding-curve early return: the SOL
rate resolves to 1 and Pump.fun reports an active curve with positive
reserves. -/
def envPumpActive : Env :=
  ⟨some 1, none,
   some ⟨true, false, 1000000000, 1000000, none, none, 0, none⟩,
   none, none, none⟩

/-- Environment in which every provider fails. -/
def envAllDown : Env := ⟨none, none, none, none, none, none⟩

/-- Every fresh fetch that does not take the bonding-curve early return
writes its own result into the cache under the fetched token, stamped with
the call time. -/
theorem fetchFresh_caches (cache : Cache) (token : String) (now : ℚ)
    (env : Env) (hEarly : pumpEarlyReturn env = false) :
    (fetchFresh cache token now env).cache =
      Dict.set token (now, (fetchFresh cache token now env).info) cache := by
  unfold pumpEarlyReturn at hEarly
  unfold fetchFresh
  cases hp : env.pump with
  | none => rfl
  | some pr =>
      rw [hp] at hEarly
      simp only
      by_cases hc : (pr.mintPresent && !pr.complete) = true
      · simp only [hc, if_true]
        simp only [hc, Bool.true_and] at hEarly
        rw [if_neg (by simpa using hEarly)]
      · simp only [Bool.not_eq_true] at hc
        simp only [hc, Bool.false_eq_true, if_false]

/-- C4 counterexample: with Pump.fun reporting an active bonding curve, the
first `get_token_info` call returns at line 241 without writing the cache,
so a second call 5 seconds later misses the cache and issues the SOL-rate
and Pump.fun requests again — not the claimed zero network requests. -/
theorem get_token_info_pump_skips_cache :
    (get_token_info [] "tok" 0 envPumpActive).cache = [] ∧
    (get_token_info (get_token_info [] "tok" 0 envPumpActive).cache "tok" 5
        envPumpActive).requests = [.jupiterSolRate, .pumpFun] := by
  constructor <;> rfl

/-- C4 amended: after a `get_token_info` call that missed the cache and did
not take the bonding-curve early return (every other completion writes the
cache), any second call for the same token less than 10 seconds later
returns the stored result, leaves the cache unchanged, and issues no
network request. -/
theorem get_token_info_cached_within_10s (cache : Cache) (token : String)
    (t₁ t₂ : ℚ) (env₁ env₂ : Env)
    (hmiss : ∀ ts data, Dict.find token cache = some (ts, data) →
      ¬ t₁ - ts < 10)
    (hEarly : pumpEarlyReturn env₁ = false)
    (ht : t₂ - t₁ < 10) :
    get_token_info (get_token_info cache token t₁ env₁).cache token t₂ env₂ =
      ⟨(get_token_info cache token t₁ env₁).info,
       (get_token_info cache token t₁ env₁).cache, []⟩ := by
  have h1 : get_token_info cache token t₁ env₁ = fetchFresh cache token t₁ env₁ := by
    unfold get_token_info
    cases hfind : Dict.find token cache with
    | none => rfl
    | some tsdata =>
        obtain ⟨ts, data⟩ := tsdata
        simp [hmiss ts data hfind]
  rw [h1]
  have h2 := fetchFresh_caches cache token t₁ env₁ hEarly
  unfold get_token_info
  rw [h2, Dict.find_set]
  simp [ht]

/-- Witness for C4 amended: first call on an empty cache with all providers
down, second call 5 seconds later. -/
theorem get_token_info_cached_within_10s_witness :
    get_token_info (get_token_info [] "tok" 0 envAllDown).cache "tok" 5
        envAllDown =
      ⟨(get_token_info [] "tok" 0 envAllDown).info,
       (get_token_info [] "tok" 0 envAllDown).cache, []⟩ :=
  get_token_info_cached_within_10s [] "tok" 0 5 envAllDown envAllDown
    (fun ts data h => by simp [Dict.find] at h) (by rfl) (by norm_num)

/-- Witness for C10 amended: a buy of -1 SOL on an empty portfolio succeeds
and raises the balance from 20 to 21. -/
theorem buy_no_lower_bound_witness :
    ∃ result,
      buy (⟨20, [], []⟩ : Portfolio) "tok" (-1) (some 1) none 0 0 0
        = .ok result ∧ result.balance = 21 := by
  obtain ⟨r, hok, hbal, -, -, -⟩ :=
    buy_no_lower_bound ⟨20, [], []⟩ "tok" (-1) 1 none 0 0 0 (by norm_num)
      one_pos le_rfl (fun pos hpos => by simp [Dict.find] at hpos)
  exact ⟨r, hok, by rw [hbal]; norm_num⟩

end SolPaper
